import Mathlib

/-!
Verification of the DBC flow-graph-compiler backend
(`runtime/vm/compiler/backend/flow_graph_compiler_dbc.cc`): a shallow
embedding of the deoptimization-metadata builder (`CompilerDeoptInfo::
CreateDeoptInfo`), the call-site recording protocol
(`FlowGraphCompiler::RecordAfterCallHelper`), the parallel move resolver
(`ParallelMoveResolver::EmitMove` / `EmitSwap`) and the trivial accessor
emitters (`GenerateInlinedGetter` / `GenerateInlinedSetter`), together
with theorems settling the specification's claims about them.

Machine integers are modelled as `Int`/`Nat`; C++ `double` constants are
modelled by their 64-bit IEEE-754 bit patterns (a `Nat`), which is all
the code inspects (`Utils::DoublesBitEqual` compares bit patterns).
`ASSERT(...)` statements are modelled as a distinct `assertFailed`
outcome: in a debug build they abort, and in either build they are not a
`Bailout`.
-/

/-- Value representations relevant to `EmitMove`: tagged pointers vs.
unboxed doubles (`kUnboxedDouble`). -/
inductive ConstRep where
  | tagged
  | unboxedDouble
deriving DecidableEq, Repr

/-- Constant objects a `Location.constant` or deopt slot can carry: the
null object, a Smi, a `Double` identified by its 64-bit bit pattern, a
`Function`, or some other heap object identified by an id. -/
inductive CObj where
  | nullObj
  | smiObj (n : Int)
  | doubleObj (bits : Nat)
  | funcObj (id : Nat)
  | objId (n : Nat)
deriving DecidableEq, Repr

/-- The storage kinds of `Location` (`vm/compiler/backend/locations.h`):
invalid (= `NoLocation`), machine register, FP-relative stack slot,
constant (carrying the constant definition's representation and value),
and the three DBC pseudo-registers. -/
inductive Location where
  | invalid
  | register (id : Nat)
  | stackSlot (stackIndex : Int) (baseReg : Nat)
  | constant (rep : ConstRep) (value : CObj)
  | argsDescRegister
  | exceptionRegister
  | stackTraceRegister
deriving DecidableEq, Repr

instance : Inhabited Location := ⟨Location.invalid⟩

def Location.isRegister : Location → Bool
  | .register _ => true
  | _ => false

def Location.isStackSlot : Location → Bool
  | .stackSlot _ _ => true
  | _ => false

def Location.isConstant : Location → Bool
  | .constant _ _ => true
  | _ => false

def Location.isArgsDescRegister : Location → Bool
  | .argsDescRegister => true
  | _ => false

def Location.isExceptionRegister : Location → Bool
  | .exceptionRegister => true
  | _ => false

def Location.isStackTraceRegister : Location → Bool
  | .stackTraceRegister => true
  | _ => false

def Location.isInvalid : Location → Bool
  | .invalid => true
  | _ => false

/-- `Location::reg()`: the register payload (only read on register
locations; the accessor's own assert is covered by the guard placement
in the embedded branches). -/
def Location.regNo : Location → Nat
  | .register r => r
  | _ => 0

/-- `Location::stack_index()`. -/
def Location.stackIdx : Location → Int
  | .stackSlot i _ => i
  | _ => 0

/-- `Location::base_reg()`. -/
def Location.baseRegNo : Location → Nat
  | .stackSlot _ b => b
  | _ => 0

/-- Modelled from the spec: the DBC frame-pointer register id (`FPREG`,
defined outside the source fragment); only its identity matters. -/
def FPREG : Nat := 0

/-- Modelled from the spec: the frame-layout constant
`compiler_frame_layout.param_end_from_fp` (defined outside the source
fragment); its exact value is immaterial to the claims. -/
def param_end_from_fp : Int := 4

/-- Modelled from the spec: `Simulator::kExceptionSpecialIndex`; only
distinctness from the stack-trace index matters. -/
def kExceptionSpecialIndex : Nat := 0

/-- Modelled from the spec: `Simulator::kStackTraceSpecialIndex`. -/
def kStackTraceSpecialIndex : Nat := 1

/-- The IEEE-754 bit pattern of `+0.0` (all bits clear). -/
def posZeroDoubleBits : Nat := 0

/-- The IEEE-754 bit pattern of `-0.0` (sign bit only). -/
def negZeroDoubleBits : Nat := 2 ^ 63

/-- `Utils::DoublesBitEqual(a, b)`: equality of 64-bit bit patterns. -/
def doublesBitEqual (a b : Nat) : Bool := a == b

/-- DBC instructions emitted by the embedded code paths. -/
inductive Instr where
  | move (dst : Nat) (src : Int)
  | loadArgDescriptorOpt (dst : Nat)
  | moveSpecial (dst : Nat) (specialIndex : Nat)
  | bitXor (a b c : Nat)
  | loadConstant (dst : Nat) (value : CObj)
  | unboxDouble (dst src : Nat)
  | swap (a b : Nat)
  | loadField (a b : Nat) (off : Int)
  | loadFieldExt (a b : Nat)
  | storeField (a : Nat) (off : Int) (b : Nat)
  | storeFieldExt (a b : Nat)
  | nop (v : Int)
  | ret (r : Nat)
deriving DecidableEq, Repr

/-- Outcome of one `EmitMove`: a list of emitted instructions, a
compile-time `Bailout(reason)`, or a violated `ASSERT`. -/
inductive EmitOutcome where
  | emitted (instrs : List Instr)
  | bailout (msg : String)
  | assertFailed
deriving DecidableEq, Repr

/-- `ParallelMoveResolver::EmitMove` (flow_graph_compiler_dbc.cc,
lines 367-407), branch by branch.  Each C++ `ASSERT` becomes a guard
whose failure yields `assertFailed`; the final `else` is the
`Bailout("Unsupported move")`. -/
def emitMove (source destination : Location) : EmitOutcome :=
  if source.isStackSlot && destination.isRegister then
    -- Only allow access to the arguments (which have in the non-inverted
    -- stack positive indices).
    if source.baseRegNo == FPREG && decide (source.stackIdx > param_end_from_fp) then
      .emitted [.move destination.regNo (-source.stackIdx)]
    else .assertFailed
  else if source.isRegister && destination.isRegister then
    .emitted [.move destination.regNo (Int.ofNat source.regNo)]
  else if source.isArgsDescRegister then
    if destination.isRegister then
      .emitted [.loadArgDescriptorOpt destination.regNo]
    else .assertFailed
  else if source.isExceptionRegister then
    if destination.isRegister then
      .emitted [.moveSpecial destination.regNo kExceptionSpecialIndex]
    else .assertFailed
  else if source.isStackTraceRegister then
    if destination.isRegister then
      .emitted [.moveSpecial destination.regNo kStackTraceSpecialIndex]
    else .assertFailed
  else if source.isConstant && destination.isRegister then
    match source with
    | .constant rep v =>
      if rep = .unboxedDouble then
        match v with
        | .doubleObj bits =>
          if doublesBitEqual bits posZeroDoubleBits then
            .emitted [.bitXor destination.regNo destination.regNo destination.regNo]
          else
            .emitted [.loadConstant destination.regNo (.doubleObj bits),
                      .unboxDouble destination.regNo destination.regNo]
        | _ => .assertFailed  -- Double::Cast on a non-Double
      else .emitted [.loadConstant destination.regNo v]
    | _ => .assertFailed
  else
    .bailout "Unsupported move"

/-- `MoveOperands` (`locations.h`): a source/destination pair; an
eliminated operand has both fields set to `NoLocation` (invalid). -/
structure MoveOperands where
  src : Location
  dest : Location
deriving DecidableEq, Repr

instance : Inhabited MoveOperands := ⟨⟨Location.invalid, Location.invalid⟩⟩

/-- `MoveOperands::IsEliminated()`: the source was cleared. -/
def MoveOperands.isEliminated (m : MoveOperands) : Bool :=
  m.src == Location.invalid

/-- `MoveOperands::Blocks(loc)`: a still-pending move reading `loc`. -/
def MoveOperands.blocks (m : MoveOperands) (loc : Location) : Bool :=
  !m.isEliminated && m.src == loc

/-- `MoveOperands::Eliminate()`: clear both operands. -/
def MoveOperands.eliminate (_ : MoveOperands) : MoveOperands :=
  ⟨Location.invalid, Location.invalid⟩

/-- `ParallelMoveResolver::EmitSwap` (lines 409-431): swap the chosen
operand's two register locations, eliminate it, then rewrite the source
of every other move that blocks on either swapped location.  `none`
models the `ASSERT(source.IsRegister() && destination.IsRegister())`
failing. -/
def emitSwap (moves : List MoveOperands) (index : Nat) :
    Option (List MoveOperands × List Instr) :=
  let move := moves.getD index default
  let source := move.src
  let destination := move.dest
  if source.isRegister && destination.isRegister then
    let instrs := [Instr.swap destination.regNo source.regNo]
    -- The swap of source and destination has executed a move from source
    -- to destination.
    let moves1 := moves.set index move.eliminate
    -- Any unperformed (including pending) move with a source of either
    -- this move's source or destination needs to have their source
    -- changed to reflect the state of affairs after the swap.
    let moves2 := moves1.map fun om =>
      if om.blocks source then { om with src := destination }
      else if om.blocks destination then { om with src := source }
      else om
    some (moves2, instrs)
  else none

/-! ## Deoptimization metadata builder -/

/-- One logical frame of an `Environment` chain: its `(Value, Location)`
slots (`ValueAt` / `LocationAt`, values identified by ids), the
`fixed_parameter_count`, the owning function's id, and the frame's
`deopt_id`.  A chain is a `List Frame`, innermost first; the empty list
models a NULL `deopt_env_`. -/
structure Frame where
  slots : List (Nat × Location)
  fixedParameterCount : Nat
  function : Nat
  deoptId : Int
deriving DecidableEq, Repr

/-- `Environment::Length()`. -/
def Frame.length (f : Frame) : Nat := f.slots.length

/-- `Environment::ValueAt(i)` (value id). -/
def Frame.valueAt (f : Frame) (i : Nat) : Nat := (f.slots.getD i (0, .invalid)).1

/-- `Environment::LocationAt(i)`. -/
def Frame.locationAt (f : Frame) (i : Nat) : Location := (f.slots.getD i (0, .invalid)).2

/-- Modelled from the spec: a materialization descriptor for one
instruction flagged "materialize" — the number of variables of the
object to rebuild and its (non-null) constituent source values with
their Locations.  The discovery walk (`CompilerDeoptInfo::
EmitMaterializations`, outside the source fragment) is modelled by
passing the flagged instructions in directly. -/
structure Materialization where
  numVariables : Nat
  sources : List (Nat × Location)
deriving DecidableEq, Repr

/-- The typed slot descriptors the `DeoptInfoBuilder` accumulates
(`AddCallerFp`, `AddReturnAddress(function, deoptId)`,
`AddPcMarker(function)`, `AddConstant(object)`,
`AddCopy(value, location)`, `AddCallerPc`, and a materialize-object
record with its initialized-field count). -/
inductive DeoptRecord where
  | callerFp
  | returnAddress (function : Option Nat) (deoptId : Int)
  | pcMarker (function : Option Nat)
  | constantRecord (obj : CObj)
  | copyRecord (value : Option Nat) (loc : Location)
  | callerPc
  | materializeObject (fieldCount : Nat)
deriving DecidableEq, Repr

/-- The `DeoptInfoBuilder` accumulator: the running table-entry number
(`current_info_number_`), the instruction list being built, the index
recorded by `MarkFrameStart`, and the pending materializations. -/
structure DeoptInfoBuilder where
  currentInfoNumber : Nat
  instructions : List DeoptRecord
  frameStartIndex : Option Nat
  materializations : List Materialization
deriving DecidableEq, Repr

/-- Append one slot descriptor (the shared body of the builder's `Add*`
methods; the `slot_ix` argument of the C++ methods is positional and is
recovered from the record's position after the frame start). -/
def DeoptInfoBuilder.addRecord (b : DeoptInfoBuilder) (r : DeoptRecord) : DeoptInfoBuilder :=
  { b with instructions := b.instructions ++ [r] }

/-- `DeoptInfoBuilder::MarkFrameStart`: remember where the real frame
description begins. -/
def DeoptInfoBuilder.markFrameStart (b : DeoptInfoBuilder) : DeoptInfoBuilder :=
  { b with frameStartIndex := some b.instructions.length }

/-- Modelled from the spec: `DeoptId::ToDeoptAfter(deopt_id)` is the
"continue after call" id `deopt_id + 1`. -/
def toDeoptAfter (deoptId : Int) : Int := deoptId + 1

/-- The list `[hi-1, hi-2, ..., lo]` driving the descending copy loops. -/
def revRange (lo hi : Nat) : List Nat := ((List.range (hi - lo)).map (· + lo)).reverse

/-- `CompilerDeoptInfo::EmitMaterializations`: register every flagged
materialization with the builder; each registration appends one
materialize-object record (carrying its initialized-field count) ahead
of the frame start. -/
def emitMaterializations (mats : List Materialization) (b : DeoptInfoBuilder) :
    DeoptInfoBuilder :=
  mats.foldl
    (fun b m =>
      { b with
        instructions := b.instructions ++ [.materializeObject m.sources.length],
        materializations := b.materializations ++ [m] })
    b

/-- Modelled from the spec: `DeoptInfoBuilder::EmitMaterializationArguments`
emits, for each registered materialization, a constant slot carrying its
variable count followed by a copy of each of its source values — the
copies land on the bottom frame's expression-stack representation and
reference the same source Locations as the descriptors. -/
def emitMaterializationArguments (mats : List Materialization) (b : DeoptInfoBuilder) :
    DeoptInfoBuilder :=
  mats.foldl
    (fun b m =>
      (m.sources.foldl
        (fun b p => b.addRecord (.copyRecord (some p.1) p.2))
        (b.addRecord (.constantRecord (.smiObj (Int.ofNat m.numVariables))))))
    b

/-- The innermost loop `for (i = Length()-1; i >= fixed_parameter_count(); i--)
AddCopy(ValueAt(i), LocationAt(i))`. -/
def emitLocals (f : Frame) (b : DeoptInfoBuilder) : DeoptInfoBuilder :=
  (revRange f.fixedParameterCount f.length).foldl
    (fun b i => b.addRecord (.copyRecord (some (f.valueAt i)) (f.locationAt i)))
    b

/-- The parameter loop `for (i = fixed_parameter_count()-1; i >= 0; i--)
AddCopy(ValueAt(i), LocationAt(i))`. -/
def emitParams (f : Frame) (b : DeoptInfoBuilder) : DeoptInfoBuilder :=
  (revRange 0 f.fixedParameterCount).foldl
    (fun b i => b.addRecord (.copyRecord (some (f.valueAt i)) (f.locationAt i)))
    b

/-- The `while (current != NULL)` walk of `CreateDeoptInfo` (lines
126-169), including the post-loop outermost-frame epilogue: for each
outer frame a return address at its after-call deopt id, pc-marker and
constant slots naming the previous (more-inner) frame's function, the
previous frame's parameter copies, the outer frame's locals and a closing
caller-fp slot; for the outermost frame a caller-pc slot, its own
pc-marker and constant slots and its incoming parameter copies. -/
def emitOuterFrames (previous : Frame) (rest : List Frame) (b : DeoptInfoBuilder) :
    DeoptInfoBuilder :=
  match rest with
  | [] =>
    -- For the outermost environment, set caller PC.
    let b := b.addRecord .callerPc
    let b := b.addRecord (.pcMarker (some previous.function))
    let b := b.addRecord (.constantRecord (.funcObj previous.function))
    -- For the outermost environment, set the incoming arguments.
    emitParams previous b
  | current :: rest' =>
    -- For any outer environment the deopt id is that of the call
    -- instruction which is recorded in the outer environment.
    let b := b.addRecord (.returnAddress (some current.function) (toDeoptAfter current.deoptId))
    let b := b.addRecord (.pcMarker (some previous.function))
    let b := b.addRecord (.constantRecord (.funcObj previous.function))
    -- The values of outgoing arguments can be changed from the inlined
    -- call so we must read them from the previous environment.
    let b := emitParams previous b
    -- Set the locals, note that outgoing arguments are not in the
    -- environment.
    let b := emitLocals current b
    let b := b.addRecord .callerFp
    emitOuterFrames current rest' b

/-- Modelled from the spec: `CompilerDeoptInfo::
AllocateIncomingParametersRecursive` grows the stack height by one for
every incoming-parameter slot of the chain still lacking a location; the
claims never inspect the resulting height. -/
def allocateIncomingParamsCount (chain : List Frame) : Int :=
  Int.ofNat <| (chain.map
    (fun f => ((f.slots.take f.fixedParameterCount).filter
      (fun p => p.2.isInvalid)).length)).sum

/-- Modelled from the spec: `compiler_frame_layout.
FrameSlotForVariableIndex` (frame layout, outside the source fragment);
the claims never inspect the resulting slot number. -/
def frameSlotForVariableIndex (i : Int) : Int := i

/-- `CompilerDeoptInfo`: the deopt id, the `lazy_deopt_with_result_`
flag, the attached environment chain (innermost first; `[]` models a
NULL `deopt_env_`), and the chain's flagged materializations. -/
structure CompilerDeoptInfo where
  deoptId : Int
  lazyDeoptWithResult : Bool
  deoptEnv : List Frame
  mats : List Materialization
deriving DecidableEq, Repr

/-- A serialized deoptimization table entry: the recorded frame-start
index and the ordered slot descriptors. -/
structure TableEntry where
  frameStart : Nat
  records : List DeoptRecord
deriving DecidableEq, Repr

/-- `DeoptInfoBuilder::CreateDeoptInfo(deopt_table)`: serialize the
accumulated instructions into a table entry, clear the accumulator and
advance `current_info_number_`. -/
def DeoptInfoBuilder.createEntry (b : DeoptInfoBuilder) : DeoptInfoBuilder × TableEntry :=
  ({ currentInfoNumber := b.currentInfoNumber + 1,
     instructions := [],
     frameStartIndex := none,
     materializations := [] },
   { frameStart := b.frameStartIndex.getD 0, records := b.instructions })

/-- `CompilerDeoptInfo::CreateDeoptInfo` (lines 76-172).  A NULL
environment only advances `current_info_number_` and yields no entry
(`TypedData::null()`, modelled as `none`).  Otherwise the entry is
emitted in the source's statement order: materialization descriptors,
frame-start mark, the innermost header (caller-fp, return address with
this deopt id, a pc-marker and a constant slot both built from
`Function::ZoneHandle(zone)` — the null function), the materialization
arguments, the optional lazy-deopt result slot, the innermost locals, a
closing caller-fp slot, and the outer-frame walk. -/
def CompilerDeoptInfo.createDeoptInfo (info : CompilerDeoptInfo) (stackSize : Int)
    (builder : DeoptInfoBuilder) : DeoptInfoBuilder × Option TableEntry :=
  match info.deoptEnv with
  | [] =>
    ({ builder with currentInfoNumber := builder.currentInfoNumber + 1 }, none)
  | innermost :: outers =>
    let stackHeight := stackSize + allocateIncomingParamsCount (innermost :: outers)
    -- Emit all kMaterializeObject instructions describing objects to be
    -- materialized on the deoptimization as a prefix to the
    -- deoptimization info.
    let b := emitMaterializations info.mats builder
    -- The real frame starts here.
    let b := b.markFrameStart
    let b := b.addRecord .callerFp
    let b := b.addRecord (.returnAddress (some innermost.function) info.deoptId)
    let b := b.addRecord (.pcMarker none)
    let b := b.addRecord (.constantRecord .nullObj)
    -- Emit all values that are needed for materialization as a part of
    -- the expression stack for the bottom-most frame. This guarantees
    -- that GC will be able to find them during materialization.
    let b := emitMaterializationArguments info.mats b
    let b := if info.lazyDeoptWithResult then
        b.addRecord (.copyRecord none
          (.stackSlot (frameSlotForVariableIndex (-stackHeight)) FPREG))
      else b
    -- For the innermost environment, set outgoing arguments and the
    -- locals.
    let b := emitLocals innermost b
    let b := b.addRecord .callerFp
    let b := emitOuterFrames innermost outers b
    let (b, entry) := b.createEntry
    (b, some entry)

/-! ## Call-site recording protocol -/

/-- `FlowGraphCompiler::CallResult`. -/
inductive CallResult where
  | noResult
  | hasResult
deriving DecidableEq, Repr

/-- PC descriptor kinds used here (`RawPcDescriptors::kOther`,
`RawPcDescriptors::kDeopt`). -/
inductive PcDescKind where
  | other
  | deopt
deriving DecidableEq, Repr

/-- One entry of the PC descriptor table
(`AddCurrentDescriptor(kind, deopt_id, token_pos)`). -/
structure PcDesc where
  kind : PcDescKind
  deoptId : Int
  tokenPos : Int
deriving DecidableEq, Repr

/-- The `FlowGraphCompiler` state touched by `RecordAfterCallHelper`:
the optimization mode, the recorded safepoints (location summaries by
id), the pending deoptimization environment, the accumulated
`CompilerDeoptInfo`s and the PC descriptor table. -/
structure CompilerState where
  isOptimizing : Bool
  safepoints : List Nat
  pendingDeoptEnv : List Frame
  deoptInfos : List CompilerDeoptInfo
  pcDescs : List PcDesc
deriving DecidableEq, Repr

/-- Modelled from the spec: `Environment::DropArguments(argc)` removes
the trailing `argc` already-consumed outgoing-argument slots from the
innermost environment. -/
def dropArguments (env : List Frame) (argc : Nat) : List Frame :=
  match env with
  | [] => []
  | f :: rest => { f with slots := f.slots.take (f.slots.length - argc) } :: rest

/-- `FlowGraphCompiler::AddDeoptIndexAtCall(deopt_id)` (outside the
source fragment, modelled from the spec): allocate and attach a
`CompilerDeoptInfo` keyed by the given id over the pending
deoptimization environment. -/
def addDeoptIndexAtCall (st : CompilerState) (deoptId : Int) :
    CompilerState × CompilerDeoptInfo :=
  let info : CompilerDeoptInfo :=
    { deoptId := deoptId, lazyDeoptWithResult := false,
      deoptEnv := st.pendingDeoptEnv, mats := [] }
  ({ st with deoptInfos := st.deoptInfos ++ [info] }, info)

/-- `FlowGraphCompiler::RecordAfterCallHelper` (lines 174-200): record a
safepoint for the call's location summary; in optimizing mode drop the
consumed outgoing arguments from the pending environment, attach a
`CompilerDeoptInfo` keyed by `ToDeoptAfter(deopt_id)`, mark it
lazy-deopt-with-result when the call has a result, and add a kind-Other
descriptor; in baseline mode add only a kind-Deopt descriptor. -/
def recordAfterCallHelper (tokenPos : Int) (deoptId : Int) (argumentCount : Nat)
    (result : CallResult) (locs : Nat) (st : CompilerState) : CompilerState :=
  let st := { st with safepoints := st.safepoints ++ [locs] }
  -- Marks either the continuation point in unoptimized code or the
  -- deoptimization point in optimized code, after call.
  let deoptIdAfter := toDeoptAfter deoptId
  if st.isOptimizing then
    -- Return/ReturnTOS instruction drops incoming arguments so we have
    -- to drop outgoing arguments from the innermost environment.
    let st := { st with pendingDeoptEnv := dropArguments st.pendingDeoptEnv argumentCount }
    let (st, info) := addDeoptIndexAtCall st deoptIdAfter
    let st :=
      if result == CallResult.hasResult then
        { st with
          deoptInfos := st.deoptInfos.take (st.deoptInfos.length - 1)
            ++ [{ info with lazyDeoptWithResult := true }] }
      else st
    -- This descriptor is needed for exception handling in optimized
    -- code.
    { st with pcDescs := st.pcDescs ++ [⟨.other, deoptIdAfter, tokenPos⟩] }
  else
    -- Add deoptimization continuation point after the call and before
    -- the arguments are removed.
    { st with pcDescs := st.pcDescs ++ [⟨.deopt, deoptIdAfter, tokenPos⟩] }

/-! ## Trivial accessor emission -/

/-- Modelled from the spec: the target word size in bytes (`kWordSize`,
64-bit host). -/
def kWordSize : Int := 8

/-- `Utils::IsInt(8, value)`: the value fits a signed 8-bit immediate. -/
def isInt8 (v : Int) : Bool := decide (-128 ≤ v) && decide (v < 128)

/-- `FlowGraphCompiler::GenerateInlinedGetter` (lines 287-297): load the
receiver from its parameter slot, then the compact `LoadField` when the
word offset fits a narrow signed 8-bit immediate, else `LoadFieldExt`
plus a `Nop` carrying the word offset, then return.  C++ `intptr_t`
division truncates toward zero (`Int.tdiv`). -/
def generateInlinedGetter (offset : Int) : List Instr :=
  [.move 0 (-(1 + param_end_from_fp))]
    ++ (if isInt8 (offset.tdiv kWordSize) then
          [.loadField 0 0 (offset.tdiv kWordSize)]
        else
          [.loadFieldExt 0 0, .nop (offset.tdiv kWordSize)])
    ++ [.ret 0]

/-- `FlowGraphCompiler::GenerateInlinedSetter` (lines 299-311): load the
receiver and the stored value from their parameter slots, then the
compact `StoreField` when the word offset fits a narrow signed 8-bit
immediate, else `StoreFieldExt` plus a `Nop` carrying the word offset,
then load null and return. -/
def generateInlinedSetter (offset : Int) : List Instr :=
  [.move 0 (-(2 + param_end_from_fp)), .move 1 (-(1 + param_end_from_fp))]
    ++ (if isInt8 (offset.tdiv kWordSize) then
          [.storeField 0 (offset.tdiv kWordSize) 1]
        else
          [.storeFieldExt 0 1, .nop (offset.tdiv kWordSize)])
    ++ [.loadConstant 0 .nullObj, .ret 0]

/-! ## Structural decomposition of the emitted entry -/

/-- The materialization-descriptor prefix produced by
`emitMaterializations`. -/
def matDescRecords (mats : List Materialization) : List DeoptRecord :=
  mats.map fun m => .materializeObject m.sources.length

/-- The materialization-argument run produced by
`emitMaterializationArguments`. -/
def matArgRecords (mats : List Materialization) : List DeoptRecord :=
  (mats.map fun m =>
    DeoptRecord.constantRecord (.smiObj (Int.ofNat m.numVariables))
      :: m.sources.map fun p => DeoptRecord.copyRecord (some p.1) p.2).flatten

/-- The incoming-parameter copies of a frame, indices
`fixed_parameter_count - 1` down to `0`. -/
def paramCopyRecords (f : Frame) : List DeoptRecord :=
  (revRange 0 f.fixedParameterCount).map fun i =>
    .copyRecord (some (f.valueAt i)) (f.locationAt i)

/-- The locals/outgoing-argument copies of a frame, indices
`Length() - 1` down to `fixed_parameter_count`. -/
def localCopyRecords (f : Frame) : List DeoptRecord :=
  (revRange f.fixedParameterCount f.length).map fun i =>
    .copyRecord (some (f.valueAt i)) (f.locationAt i)

/-- The four innermost header slots of lines 99-102. -/
def innermostHeader (fn : Nat) (deoptId : Int) : List DeoptRecord :=
  [.callerFp, .returnAddress (some fn) deoptId, .pcMarker none, .constantRecord .nullObj]

/-- The optional lazy-deopt-with-result slot of lines 109-116. -/
def lazyRecords (info : CompilerDeoptInfo) (stackSize : Int) (chain : List Frame) :
    List DeoptRecord :=
  if info.lazyDeoptWithResult then
    [.copyRecord none
      (.stackSlot
        (frameSlotForVariableIndex (-(stackSize + allocateIncomingParamsCount chain)))
        FPREG)]
  else []

/-- The records emitted by the outer-frame walk (`emitOuterFrames`), as
a pure list. -/
def outerRecords (previous : Frame) (rest : List Frame) : List DeoptRecord :=
  match rest with
  | [] =>
    .callerPc :: .pcMarker (some previous.function)
      :: .constantRecord (.funcObj previous.function) :: paramCopyRecords previous
  | current :: rest' =>
    .returnAddress (some current.function) (toDeoptAfter current.deoptId)
      :: .pcMarker (some previous.function)
      :: .constantRecord (.funcObj previous.function)
      :: (paramCopyRecords previous ++ localCopyRecords current
          ++ [.callerFp] ++ outerRecords current rest')

/-- The closing run of the whole entry: the outermost frame's caller-pc
slot, its own pc-marker and constant slots, and its incoming parameter
copies. -/
def outermostTail (f : Frame) : List DeoptRecord :=
  .callerPc :: .pcMarker (some f.function)
    :: .constantRecord (.funcObj f.function) :: paramCopyRecords f


theorem addRecord_instructions (b : DeoptInfoBuilder) (r : DeoptRecord) :
    (b.addRecord r).instructions = b.instructions ++ [r] := rfl

theorem addRecord_frameStart (b : DeoptInfoBuilder) (r : DeoptRecord) :
    (b.addRecord r).frameStartIndex = b.frameStartIndex := rfl

theorem markFrameStart_instructions (b : DeoptInfoBuilder) :
    b.markFrameStart.instructions = b.instructions := rfl

theorem markFrameStart_frameStart (b : DeoptInfoBuilder) :
    b.markFrameStart.frameStartIndex = some b.instructions.length := rfl

theorem foldl_addRecord_instructions {α : Type} (g : α → DeoptRecord) (l : List α)
    (b : DeoptInfoBuilder) :
    (l.foldl (fun b x => b.addRecord (g x)) b).instructions = b.instructions ++ l.map g := by
  induction l generalizing b with
  | nil => simp
  | cons x xs ih =>
    rw [List.foldl_cons, ih]
    simp [addRecord_instructions]

theorem foldl_addRecord_frameStart {α : Type} (g : α → DeoptRecord) (l : List α)
    (b : DeoptInfoBuilder) :
    (l.foldl (fun b x => b.addRecord (g x)) b).frameStartIndex = b.frameStartIndex := by
  induction l generalizing b with
  | nil => rfl
  | cons x xs ih =>
    rw [List.foldl_cons, ih, addRecord_frameStart]

theorem emitMaterializations_instructions (mats : List Materialization)
    (b : DeoptInfoBuilder) :
    (emitMaterializations mats b).instructions = b.instructions ++ matDescRecords mats := by
  induction mats generalizing b with
  | nil => simp [emitMaterializations, matDescRecords]
  | cons m ms ih =>
    simp only [emitMaterializations, List.foldl_cons] at ih ⊢
    rw [ih]
    simp [matDescRecords]

theorem emitMaterializations_frameStart (mats : List Materialization)
    (b : DeoptInfoBuilder) :
    (emitMaterializations mats b).frameStartIndex = b.frameStartIndex := by
  induction mats generalizing b with
  | nil => rfl
  | cons m ms ih =>
    simp only [emitMaterializations, List.foldl_cons] at ih ⊢
    rw [ih]

theorem emitMaterializationArguments_instructions (mats : List Materialization)
    (b : DeoptInfoBuilder) :
    (emitMaterializationArguments mats b).instructions
      = b.instructions ++ matArgRecords mats := by
  induction mats generalizing b with
  | nil => simp [emitMaterializationArguments, matArgRecords]
  | cons m ms ih =>
    simp only [emitMaterializationArguments, List.foldl_cons] at ih ⊢
    rw [ih, foldl_addRecord_instructions]
    simp [addRecord_instructions, matArgRecords]

theorem emitMaterializationArguments_frameStart (mats : List Materialization)
    (b : DeoptInfoBuilder) :
    (emitMaterializationArguments mats b).frameStartIndex = b.frameStartIndex := by
  induction mats generalizing b with
  | nil => rfl
  | cons m ms ih =>
    simp only [emitMaterializationArguments, List.foldl_cons] at ih ⊢
    rw [ih, foldl_addRecord_frameStart, addRecord_frameStart]

theorem emitLocals_instructions (f : Frame) (b : DeoptInfoBuilder) :
    (emitLocals f b).instructions = b.instructions ++ localCopyRecords f := by
  rw [emitLocals, foldl_addRecord_instructions, localCopyRecords]

theorem emitLocals_frameStart (f : Frame) (b : DeoptInfoBuilder) :
    (emitLocals f b).frameStartIndex = b.frameStartIndex := by
  rw [emitLocals, foldl_addRecord_frameStart]

theorem emitParams_instructions (f : Frame) (b : DeoptInfoBuilder) :
    (emitParams f b).instructions = b.instructions ++ paramCopyRecords f := by
  rw [emitParams, foldl_addRecord_instructions, paramCopyRecords]

theorem emitParams_frameStart (f : Frame) (b : DeoptInfoBuilder) :
    (emitParams f b).frameStartIndex = b.frameStartIndex := by
  rw [emitParams, foldl_addRecord_frameStart]

theorem emitOuterFrames_instructions (previous : Frame) (rest : List Frame)
    (b : DeoptInfoBuilder) :
    (emitOuterFrames previous rest b).instructions
      = b.instructions ++ outerRecords previous rest := by
  induction rest generalizing previous b with
  | nil =>
    simp [emitOuterFrames, emitParams_instructions, addRecord_instructions, outerRecords]
  | cons current rest' ih =>
    simp [emitOuterFrames, ih, emitLocals_instructions, emitParams_instructions,
      addRecord_instructions, outerRecords]

theorem emitOuterFrames_frameStart (previous : Frame) (rest : List Frame)
    (b : DeoptInfoBuilder) :
    (emitOuterFrames previous rest b).frameStartIndex = b.frameStartIndex := by
  induction rest generalizing previous b with
  | nil =>
    simp [emitOuterFrames, emitParams_frameStart, addRecord_frameStart]
  | cons current rest' ih =>
    simp [emitOuterFrames, ih, emitLocals_frameStart, emitParams_frameStart,
      addRecord_frameStart]

/-- Full structural decomposition of a non-NULL entry: the serialized
records are, in order, the materialization descriptors, the innermost
header, the materialization arguments, the optional lazy-result slot,
the innermost locals, the closing caller-fp slot and the outer-frame
walk; the recorded frame start sits right after the descriptors. -/
theorem createDeoptInfo_entry_eq (info : CompilerDeoptInfo) (stackSize : Int)
    (b : DeoptInfoBuilder) (inner : Frame) (outers : List Frame)
    (hb : b.instructions = []) (he : info.deoptEnv = inner :: outers) :
    (info.createDeoptInfo stackSize b).2 = some
      { frameStart := (matDescRecords info.mats).length,
        records := matDescRecords info.mats
          ++ innermostHeader inner.function info.deoptId
          ++ matArgRecords info.mats
          ++ lazyRecords info stackSize (inner :: outers)
          ++ localCopyRecords inner
          ++ [.callerFp]
          ++ outerRecords inner outers } := by
  rw [CompilerDeoptInfo.createDeoptInfo, he]
  by_cases hl : info.lazyDeoptWithResult
  · simp [DeoptInfoBuilder.createEntry, hl, emitOuterFrames_instructions,
      emitOuterFrames_frameStart, emitLocals_instructions, emitLocals_frameStart,
      emitMaterializationArguments_instructions, emitMaterializationArguments_frameStart,
      addRecord_instructions, addRecord_frameStart, markFrameStart_instructions,
      markFrameStart_frameStart, emitMaterializations_instructions,
      emitMaterializations_frameStart, hb, innermostHeader, lazyRecords]
  · simp [DeoptInfoBuilder.createEntry, hl, emitOuterFrames_instructions,
      emitOuterFrames_frameStart, emitLocals_instructions, emitLocals_frameStart,
      emitMaterializationArguments_instructions, emitMaterializationArguments_frameStart,
      addRecord_instructions, addRecord_frameStart, markFrameStart_instructions,
      markFrameStart_frameStart, emitMaterializations_instructions,
      emitMaterializations_frameStart, hb, innermostHeader, lazyRecords]

/-! ## Claims -/

/-- C8: calling `CreateDeoptInfo` with an absent (NULL) environment
chain returns the null table entry (`TypedData::null()`, modelled as
`none`) and does not fail or report an error. -/
theorem claim_C8 (info : CompilerDeoptInfo) (stackSize : Int) (b : DeoptInfoBuilder)
    (he : info.deoptEnv = []) :
    (info.createDeoptInfo stackSize b).2 = none := by
  rw [CompilerDeoptInfo.createDeoptInfo, he]

theorem claim_C8_witness :
    ((⟨0, false, [], []⟩ : CompilerDeoptInfo).createDeoptInfo 0 ⟨0, [], none, []⟩).2 = none :=
  claim_C8 ⟨0, false, [], []⟩ 0 ⟨0, [], none, []⟩ rfl

/-- C10: on a NULL environment chain `CreateDeoptInfo` increments the
builder's `current_info_number_` by exactly one and changes no other
builder state — no slot descriptors, no frame-start mark, no
materialization descriptors — and yields no entry, keeping table entry
numbering aligned. -/
theorem claim_C10 (info : CompilerDeoptInfo) (stackSize : Int) (b : DeoptInfoBuilder)
    (he : info.deoptEnv = []) :
    (info.createDeoptInfo stackSize b).1.currentInfoNumber = b.currentInfoNumber + 1 ∧
    (info.createDeoptInfo stackSize b).1.instructions = b.instructions ∧
    (info.createDeoptInfo stackSize b).1.frameStartIndex = b.frameStartIndex ∧
    (info.createDeoptInfo stackSize b).1.materializations = b.materializations ∧
    (info.createDeoptInfo stackSize b).2 = none := by
  rw [CompilerDeoptInfo.createDeoptInfo, he]
  exact ⟨rfl, rfl, rfl, rfl, rfl⟩

theorem claim_C10_witness :
    ((⟨3, true, [], []⟩ : CompilerDeoptInfo).createDeoptInfo 2
        ⟨5, [.callerFp], some 1, []⟩).1.currentInfoNumber = 5 + 1 ∧
    ((⟨3, true, [], []⟩ : CompilerDeoptInfo).createDeoptInfo 2
        ⟨5, [.callerFp], some 1, []⟩).1.instructions = [.callerFp] ∧
    ((⟨3, true, [], []⟩ : CompilerDeoptInfo).createDeoptInfo 2
        ⟨5, [.callerFp], some 1, []⟩).1.frameStartIndex = some 1 ∧
    ((⟨3, true, [], []⟩ : CompilerDeoptInfo).createDeoptInfo 2
        ⟨5, [.callerFp], some 1, []⟩).1.materializations = [] ∧
    ((⟨3, true, [], []⟩ : CompilerDeoptInfo).createDeoptInfo 2
        ⟨5, [.callerFp], some 1, []⟩).2 = none :=
  claim_C10 ⟨3, true, [], []⟩ 2 ⟨5, [.callerFp], some 1, []⟩ rfl

/-- C2 (counterexample): for a two-frame chain (innermost function 1,
caller function 2, deopt id 7) the third innermost header slot is a
pc-marker built from `Function::ZoneHandle(zone)` — the null function —
and not a pc-marker referencing the caller's function identity 2, as the
claim states. -/
theorem claim_C2_counterexample :
    (((⟨7, false, [⟨[], 0, 1, 10⟩, ⟨[], 0, 2, 20⟩], []⟩ : CompilerDeoptInfo).createDeoptInfo 0
          ⟨0, [], none, []⟩).2.getD ⟨0, []⟩).records.getD
        ((((⟨7, false, [⟨[], 0, 1, 10⟩, ⟨[], 0, 2, 20⟩], []⟩ :
            CompilerDeoptInfo).createDeoptInfo 0
          ⟨0, [], none, []⟩).2.getD ⟨0, []⟩).frameStart + 2) .callerFp
      = .pcMarker none ∧
    (((⟨7, false, [⟨[], 0, 1, 10⟩, ⟨[], 0, 2, 20⟩], []⟩ : CompilerDeoptInfo).createDeoptInfo 0
          ⟨0, [], none, []⟩).2.getD ⟨0, []⟩).records.getD
        ((((⟨7, false, [⟨[], 0, 1, 10⟩, ⟨[], 0, 2, 20⟩], []⟩ :
            CompilerDeoptInfo).createDeoptInfo 0
          ⟨0, [], none, []⟩).2.getD ⟨0, []⟩).frameStart + 2) .callerFp
      ≠ .pcMarker (some 2) := by
  decide

/-- C2 (amended): for every non-empty environment chain the innermost
frame header is, in order: a caller-frame-pointer slot, a return-address
slot carrying the innermost function and this deopt id, a pc-marker slot
and a constant-pool placeholder slot — the latter two built from the
null function handle (no function identity), not from the caller's
function. -/
theorem claim_C2 (info : CompilerDeoptInfo) (stackSize : Int) (b : DeoptInfoBuilder)
    (inner : Frame) (outers : List Frame) (e : TableEntry)
    (hb : b.instructions = []) (he : info.deoptEnv = inner :: outers)
    (hres : (info.createDeoptInfo stackSize b).2 = some e) :
    (e.records.drop e.frameStart).take 4
      = [.callerFp, .returnAddress (some inner.function) info.deoptId,
         .pcMarker none, .constantRecord .nullObj] := by
  rw [createDeoptInfo_entry_eq info stackSize b inner outers hb he] at hres
  cases hres
  dsimp only
  simp only [List.append_assoc]
  rw [List.drop_left]
  rw [show (4 : Nat) = (innermostHeader inner.function info.deoptId).length from rfl,
    List.take_left]
  rfl

theorem claim_C2_witness :
    ((((⟨0, [.callerFp, .returnAddress (some 9) 5, .pcMarker none, .constantRecord .nullObj,
          .callerFp, .callerPc, .pcMarker (some 9), .constantRecord (.funcObj 9),
          .copyRecord (some 3) (.register 0)]⟩ : TableEntry)).records.drop
        ((⟨0, [.callerFp, .returnAddress (some 9) 5, .pcMarker none, .constantRecord .nullObj,
          .callerFp, .callerPc, .pcMarker (some 9), .constantRecord (.funcObj 9),
          .copyRecord (some 3) (.register 0)]⟩ : TableEntry)).frameStart).take 4)
      = [.callerFp, .returnAddress (some 9) 5, .pcMarker none, .constantRecord .nullObj] :=
  claim_C2 ⟨5, false, [⟨[(3, .register 0)], 1, 9, 5⟩], []⟩ 0 ⟨0, [], none, []⟩
    ⟨[(3, .register 0)], 1, 9, 5⟩ []
    ⟨0, [.callerFp, .returnAddress (some 9) 5, .pcMarker none, .constantRecord .nullObj,
        .callerFp, .callerPc, .pcMarker (some 9), .constantRecord (.funcObj 9),
        .copyRecord (some 3) (.register 0)]⟩ rfl rfl (by decide)

theorem outerRecords_eq_append_tail (previous : Frame) (rest : List Frame) :
    ∃ mid, outerRecords previous rest = mid ++ outermostTail (rest.getLastD previous) := by
  induction rest generalizing previous with
  | nil =>
    exact ⟨[], by simp [outerRecords, outermostTail, List.getLastD]⟩
  | cons current rest' ih =>
    obtain ⟨mid, hm⟩ := ih current
    refine ⟨.returnAddress (some current.function) (toDeoptAfter current.deoptId)
      :: .pcMarker (some previous.function)
      :: .constantRecord (.funcObj previous.function)
      :: (paramCopyRecords previous ++ localCopyRecords current
          ++ [.callerFp] ++ mid), ?_⟩
    simp only [List.getLastD_cons]
    simp [outerRecords, hm, List.append_assoc]

/-- C7: for every non-empty environment chain the emitted slot sequence
ends with a caller-pc slot — never a caller-frame-pointer slot —
followed by the outermost frame's own pc-marker and constant slots and
by copies of its incoming fixed parameters in descending index order
from `fixed_parameter_count - 1` down to `0`. -/
theorem claim_C7 (info : CompilerDeoptInfo) (stackSize : Int) (b : DeoptInfoBuilder)
    (inner : Frame) (outers : List Frame) (e : TableEntry)
    (hb : b.instructions = []) (he : info.deoptEnv = inner :: outers)
    (hres : (info.createDeoptInfo stackSize b).2 = some e) :
    e.records.drop (e.records.length - (outermostTail (outers.getLastD inner)).length)
        = .callerPc
          :: .pcMarker (some (outers.getLastD inner).function)
          :: .constantRecord (.funcObj (outers.getLastD inner).function)
          :: (revRange 0 (outers.getLastD inner).fixedParameterCount).map
              (fun i => .copyRecord (some ((outers.getLastD inner).valueAt i))
                ((outers.getLastD inner).locationAt i)) ∧
      DeoptRecord.callerFp ∉ outermostTail (outers.getLastD inner) := by
  rw [createDeoptInfo_entry_eq info stackSize b inner outers hb he] at hres
  cases hres
  obtain ⟨mid, hm⟩ := outerRecords_eq_append_tail inner outers
  constructor
  · dsimp only
    rw [hm, ← List.append_assoc]
    rw [List.length_append, Nat.add_sub_cancel, List.drop_left]
    rfl
  · simp only [outermostTail, paramCopyRecords, List.mem_cons, List.mem_map]
    rintro (h | h | h | ⟨i, _, h⟩) <;> exact absurd h (by simp)

theorem claim_C7_witness :
    ((⟨0, [.callerFp, .returnAddress (some 9) 5, .pcMarker none, .constantRecord .nullObj,
        .callerFp, .callerPc, .pcMarker (some 9), .constantRecord (.funcObj 9),
        .copyRecord (some 3) (.register 0)]⟩ : TableEntry)).records.drop
          (((⟨0, [.callerFp, .returnAddress (some 9) 5, .pcMarker none,
            .constantRecord .nullObj, .callerFp, .callerPc, .pcMarker (some 9),
            .constantRecord (.funcObj 9),
            .copyRecord (some 3) (.register 0)]⟩ : TableEntry)).records.length
          - (outermostTail (([] : List Frame).getLastD ⟨[(3, .register 0)], 1, 9, 5⟩)).length)
        = .callerPc
          :: .pcMarker (some (([] : List Frame).getLastD ⟨[(3, .register 0)], 1, 9, 5⟩).function)
          :: .constantRecord (.funcObj
              (([] : List Frame).getLastD ⟨[(3, .register 0)], 1, 9, 5⟩).function)
          :: (revRange 0
              (([] : List Frame).getLastD ⟨[(3, .register 0)], 1, 9, 5⟩).fixedParameterCount).map
              (fun i =>
                .copyRecord
                  (some ((([] : List Frame).getLastD ⟨[(3, .register 0)], 1, 9, 5⟩).valueAt i))
                  ((([] : List Frame).getLastD ⟨[(3, .register 0)], 1, 9, 5⟩).locationAt i)) ∧
      DeoptRecord.callerFp ∉ outermostTail (([] : List Frame).getLastD ⟨[(3, .register 0)], 1, 9, 5⟩) :=
  claim_C7 ⟨5, false, [⟨[(3, .register 0)], 1, 9, 5⟩], []⟩ 0 ⟨0, [], none, []⟩
    ⟨[(3, .register 0)], 1, 9, 5⟩ []
    ⟨0, [.callerFp, .returnAddress (some 9) 5, .pcMarker none, .constantRecord .nullObj,
        .callerFp, .callerPc, .pcMarker (some 9), .constantRecord (.funcObj 9),
        .copyRecord (some 3) (.register 0)]⟩ rfl rfl (by decide)

/-- C1 (counterexample): for a chain whose innermost frame has no slots
and one materialization with one source value `(5, register 3)`, the
frame-start mark sits at index 1 (right after the lone materialization
descriptor), the copy of the materialization's source value sits at
index 6 — after the frame start and the four header slots — and no copy
of it occurs before the frame start, contradicting the claim that the
source-value copies are emitted before the frame-start marker. -/
theorem claim_C1_counterexample :
    (((⟨7, false, [⟨[], 0, 1, 7⟩], [⟨1, [(5, .register 3)]⟩]⟩ :
          CompilerDeoptInfo).createDeoptInfo 0 ⟨0, [], none, []⟩).2.getD ⟨0, []⟩).frameStart
        = 1 ∧
    (((⟨7, false, [⟨[], 0, 1, 7⟩], [⟨1, [(5, .register 3)]⟩]⟩ :
          CompilerDeoptInfo).createDeoptInfo 0 ⟨0, [], none, []⟩).2.getD ⟨0, []⟩).records.getD
        6 .callerFp = .copyRecord (some 5) (.register 3) ∧
    ∀ i < (((⟨7, false, [⟨[], 0, 1, 7⟩], [⟨1, [(5, .register 3)]⟩]⟩ :
        CompilerDeoptInfo).createDeoptInfo 0 ⟨0, [], none, []⟩).2.getD ⟨0, []⟩).frameStart,
      (((⟨7, false, [⟨[], 0, 1, 7⟩], [⟨1, [(5, .register 3)]⟩]⟩ :
          CompilerDeoptInfo).createDeoptInfo 0 ⟨0, [], none, []⟩).2.getD ⟨0, []⟩).records.getD
        i .callerFp ≠ .copyRecord (some 5) (.register 3) := by
  decide

/-- C1 (amended): the materialization descriptors are emitted before the
frame-start marker, but the copies of their source values are emitted
after the frame start and the four innermost header slots, as the
leading part of the bottom frame's expression-stack representation
(before the lazy-result slot and the innermost locals), referencing the
same source Locations as the descriptors. -/
theorem claim_C1 (info : CompilerDeoptInfo) (stackSize : Int) (b : DeoptInfoBuilder)
    (inner : Frame) (outers : List Frame) (e : TableEntry)
    (hb : b.instructions = []) (he : info.deoptEnv = inner :: outers)
    (hres : (info.createDeoptInfo stackSize b).2 = some e) :
    e.frameStart = (matDescRecords info.mats).length ∧
    e.records.take e.frameStart = matDescRecords info.mats ∧
    (e.records.drop (e.frameStart + 4)).take (matArgRecords info.mats).length
      = matArgRecords info.mats := by
  rw [createDeoptInfo_entry_eq info stackSize b inner outers hb he] at hres
  cases hres
  refine ⟨rfl, ?_, ?_⟩
  · dsimp only
    simp only [List.append_assoc]
    exact List.take_left _ _
  · dsimp only
    simp only [List.append_assoc]
    rw [← List.drop_drop, List.drop_left]
    rw [show List.drop 4 (innermostHeader inner.function info.deoptId
        ++ (matArgRecords info.mats
            ++ (lazyRecords info stackSize (inner :: outers)
                ++ (localCopyRecords inner
                    ++ ([DeoptRecord.callerFp] ++ outerRecords inner outers)))))
      = matArgRecords info.mats
          ++ (lazyRecords info stackSize (inner :: outers)
              ++ (localCopyRecords inner
                  ++ ([DeoptRecord.callerFp] ++ outerRecords inner outers))) from rfl]
    rw [← List.append_assoc, ← List.append_assoc, ← List.append_assoc]
    simp only [List.append_assoc]
    exact List.take_left _ _

theorem claim_C1_witness :
    (⟨1, [.materializeObject 1, .callerFp, .returnAddress (some 1) 7, .pcMarker none,
        .constantRecord .nullObj, .constantRecord (.smiObj 1), .copyRecord (some 5) (.register 3),
        .callerFp, .callerPc, .pcMarker (some 1), .constantRecord (.funcObj 1)]⟩ :
        TableEntry).frameStart
        = (matDescRecords [⟨1, [(5, .register 3)]⟩]).length ∧
    (⟨1, [.materializeObject 1, .callerFp, .returnAddress (some 1) 7, .pcMarker none,
        .constantRecord .nullObj, .constantRecord (.smiObj 1), .copyRecord (some 5) (.register 3),
        .callerFp, .callerPc, .pcMarker (some 1), .constantRecord (.funcObj 1)]⟩ :
        TableEntry).records.take
        (⟨1, [.materializeObject 1, .callerFp, .returnAddress (some 1) 7, .pcMarker none,
          .constantRecord .nullObj, .constantRecord (.smiObj 1),
          .copyRecord (some 5) (.register 3), .callerFp, .callerPc, .pcMarker (some 1),
          .constantRecord (.funcObj 1)]⟩ : TableEntry).frameStart
      = matDescRecords [⟨1, [(5, .register 3)]⟩] ∧
    ((⟨1, [.materializeObject 1, .callerFp, .returnAddress (some 1) 7, .pcMarker none,
        .constantRecord .nullObj, .constantRecord (.smiObj 1), .copyRecord (some 5) (.register 3),
        .callerFp, .callerPc, .pcMarker (some 1), .constantRecord (.funcObj 1)]⟩ :
        TableEntry).records.drop
        ((⟨1, [.materializeObject 1, .callerFp, .returnAddress (some 1) 7, .pcMarker none,
          .constantRecord .nullObj, .constantRecord (.smiObj 1),
          .copyRecord (some 5) (.register 3), .callerFp, .callerPc, .pcMarker (some 1),
          .constantRecord (.funcObj 1)]⟩ : TableEntry).frameStart + 4)).take
        (matArgRecords [⟨1, [(5, .register 3)]⟩]).length
      = matArgRecords [⟨1, [(5, .register 3)]⟩] :=
  claim_C1 ⟨7, false, [⟨[], 0, 1, 7⟩], [⟨1, [(5, .register 3)]⟩]⟩ 0 ⟨0, [], none, []⟩
    ⟨[], 0, 1, 7⟩ []
    ⟨1, [.materializeObject 1, .callerFp, .returnAddress (some 1) 7, .pcMarker none,
        .constantRecord .nullObj, .constantRecord (.smiObj 1), .copyRecord (some 5) (.register 3),
        .callerFp, .callerPc, .pcMarker (some 1), .constantRecord (.funcObj 1)]⟩
    rfl rfl (by decide)

/-- C3: `RecordAfterCallHelper` always records a safepoint for the
call's location summary; while optimizing it drops `argument_count`
consumed outgoing-argument slots from the pending deoptimization
environment, attaches a `CompilerDeoptInfo` keyed by
`deopt_id_after = deopt_id + 1` whose `lazy_deopt_with_result` flag is
set iff the call has a usable result, and records a kind-Other pc
descriptor at that id; in baseline mode it records the safepoint and a
kind-Deopt descriptor and creates no deopt-table entry. -/
theorem claim_C3 (tokenPos deoptId : Int) (argumentCount : Nat) (result : CallResult)
    (locs : Nat) (st : CompilerState) :
    (st.isOptimizing = true →
      recordAfterCallHelper tokenPos deoptId argumentCount result locs st
        = { st with
            safepoints := st.safepoints ++ [locs],
            pendingDeoptEnv := dropArguments st.pendingDeoptEnv argumentCount,
            deoptInfos := st.deoptInfos
              ++ [{ deoptId := deoptId + 1,
                    lazyDeoptWithResult := result == CallResult.hasResult,
                    deoptEnv := dropArguments st.pendingDeoptEnv argumentCount,
                    mats := [] }],
            pcDescs := st.pcDescs ++ [⟨.other, deoptId + 1, tokenPos⟩] }) ∧
    (st.isOptimizing = false →
      recordAfterCallHelper tokenPos deoptId argumentCount result locs st
        = { st with
            safepoints := st.safepoints ++ [locs],
            pcDescs := st.pcDescs ++ [⟨.deopt, deoptId + 1, tokenPos⟩] }) := by
  constructor
  · intro h
    cases result <;>
      simp [recordAfterCallHelper, addDeoptIndexAtCall, h, toDeoptAfter,
        List.take_left]
  · intro h
    simp [recordAfterCallHelper, h, toDeoptAfter]

theorem claim_C3_witness :
    recordAfterCallHelper 3 10 1 .hasResult 42
        ⟨true, [], [⟨[(1, .register 0), (2, .register 1)], 1, 9, 10⟩], [], []⟩
      = ⟨true, [42], [⟨[(1, .register 0)], 1, 9, 10⟩],
          [⟨11, true, [⟨[(1, .register 0)], 1, 9, 10⟩], []⟩],
          [⟨.other, 11, 3⟩]⟩ ∧
    recordAfterCallHelper 3 10 1 .noResult 42
        ⟨false, [], [⟨[(1, .register 0), (2, .register 1)], 1, 9, 10⟩], [], []⟩
      = ⟨false, [42], [⟨[(1, .register 0), (2, .register 1)], 1, 9, 10⟩], [],
          [⟨.deopt, 11, 3⟩]⟩ :=
  ⟨(claim_C3 3 10 1 .hasResult 42
      ⟨true, [], [⟨[(1, .register 0), (2, .register 1)], 1, 9, 10⟩], [], []⟩).1 rfl,
   (claim_C3 3 10 1 .noResult 42
      ⟨false, [], [⟨[(1, .register 0), (2, .register 1)], 1, 9, 10⟩], [], []⟩).2 rfl⟩

/-- C4 (counterexample): an args-descriptor pseudo-register source with
a stack-slot destination is not one of the supported shapes, yet
`EmitMove` does not produce the `Bailout("Unsupported move")` the claim
demands: the branch is selected on the source kind alone and its
`ASSERT(destination.IsRegister())` is violated instead. -/
theorem claim_C4_counterexample :
    emitMove .argsDescRegister (.stackSlot 5 0) = .assertFailed ∧
      emitMove .argsDescRegister (.stackSlot 5 0) ≠ .bailout "Unsupported move" := by
  constructor
  · rfl
  · decide

/-- C4 (amended): every source/destination combination rejected by all
of `EmitMove`'s branch guards — source not a stack slot, register or
constant paired with a register destination, and source not one of the
args-descriptor/exception/stack-trace pseudo-registers — produces
`Bailout("Unsupported move")` and emits no instruction; a combination
accepted by a guard but violating that branch's asserted side conditions
(a pseudo-register source with a non-register destination, or a stack
slot outside the argument region) fails an internal assertion instead of
bailing out. -/
theorem claim_C4 (source destination : Location)
    (h1 : (source.isStackSlot && destination.isRegister) = false)
    (h2 : (source.isRegister && destination.isRegister) = false)
    (h3 : source.isArgsDescRegister = false)
    (h4 : source.isExceptionRegister = false)
    (h5 : source.isStackTraceRegister = false)
    (h6 : (source.isConstant && destination.isRegister) = false) :
    emitMove source destination = .bailout "Unsupported move" := by
  cases source <;> cases destination <;>
    simp_all [emitMove, Location.isStackSlot, Location.isRegister, Location.isConstant,
      Location.isArgsDescRegister, Location.isExceptionRegister,
      Location.isStackTraceRegister]

theorem claim_C4_witness :
    emitMove (.stackSlot 1 0) (.stackSlot 2 0) = .bailout "Unsupported move" :=
  claim_C4 (.stackSlot 1 0) (.stackSlot 2 0) rfl rfl rfl rfl rfl rfl

/-- C5: a constant-to-register move of an unboxed double whose bit
pattern is exactly positive zero emits a self-XOR of the destination
register; a negative-zero double constant (different bit pattern) is
instead loaded as a literal followed by an unbox. -/
theorem claim_C5 (r : Nat) :
    emitMove (.constant .unboxedDouble (.doubleObj posZeroDoubleBits)) (.register r)
      = .emitted [.bitXor r r r] ∧
    emitMove (.constant .unboxedDouble (.doubleObj negZeroDoubleBits)) (.register r)
      = .emitted [.loadConstant r (.doubleObj negZeroDoubleBits), .unboxDouble r r] := by
  have hneg : doublesBitEqual negZeroDoubleBits posZeroDoubleBits = false := by decide
  constructor
  · rw [emitMove]
    simp [Location.isStackSlot, Location.isRegister, Location.isArgsDescRegister,
      Location.isExceptionRegister, Location.isStackTraceRegister, Location.isConstant,
      Location.regNo, doublesBitEqual]
  · rw [emitMove]
    simp [Location.isStackSlot, Location.isRegister, Location.isArgsDescRegister,
      Location.isExceptionRegister, Location.isStackTraceRegister, Location.isConstant,
      Location.regNo, hneg]

theorem getD_map_of_lt {A B : Type} [Inhabited A] [Inhabited B] (f : A → B) (l : List A)
    (i : Nat) (h : i < l.length) :
    (l.map f).getD i default = f (l.getD i default) := by
  rw [List.getD_eq_getElem?_getD, List.getD_eq_getElem?_getD, List.getElem?_map,
    List.getElem?_eq_getElem h]
  rfl

theorem getD_set_ne {A : Type} [Inhabited A] (l : List A) (j i : Nat) (a : A)
    (h : i ≠ j) : (l.set j a).getD i default = l.getD i default := by
  rw [List.getD_eq_getElem?_getD, List.getD_eq_getElem?_getD,
    List.getElem?_set_ne (by omega)]

/-- C6: after `EmitSwap` exchanges the chosen operand's two register
locations, every other still-pending operand whose source equals either
swapped location has its source rewritten to the other swapped
location. -/
theorem claim_C6 (moves : List MoveOperands) (index : Nat)
    (moves2 : List MoveOperands) (instrs : List Instr) (i : Nat)
    (hswap : emitSwap moves index = some (moves2, instrs))
    (hi : i < moves.length) (hne : i ≠ index)
    (hpending : (moves.getD i default).isEliminated = false) :
    ((moves.getD i default).src = (moves.getD index default).src →
        (moves2.getD i default).src = (moves.getD index default).dest) ∧
    ((moves.getD i default).src = (moves.getD index default).dest →
      (moves.getD i default).src ≠ (moves.getD index default).src →
        (moves2.getD i default).src = (moves.getD index default).src) := by
  rw [emitSwap] at hswap
  by_cases hreg : ((moves.getD index default).src.isRegister
      && (moves.getD index default).dest.isRegister) = true
  · simp only [hreg, if_true] at hswap
    have hp := Option.some.inj hswap
    rw [Prod.mk.injEq] at hp
    obtain ⟨hmoves2, -⟩ := hp
    have hi' : i < (moves.set index ((moves.getD index default).eliminate)).length := by
      simpa using hi
    have key : moves2.getD i default
        = (if (moves.getD i default).blocks (moves.getD index default).src then
            { moves.getD i default with src := (moves.getD index default).dest }
          else if (moves.getD i default).blocks (moves.getD index default).dest then
            { moves.getD i default with src := (moves.getD index default).src }
          else moves.getD i default) := by
      rw [← hmoves2, getD_map_of_lt _ _ _ hi', getD_set_ne _ _ _ _ hne]
    rw [key]
    constructor
    · intro hsrc
      have hb1 : (moves.getD i default).blocks (moves.getD index default).src = true := by
        rw [MoveOperands.blocks, hsrc]
        simp only [hpending, Bool.not_false, beq_self_eq_true, Bool.and_self]
      simp only [hb1, if_true]
    · intro hsrc hneq
      have hb0 : (moves.getD i default).blocks (moves.getD index default).src = false := by
        rw [MoveOperands.blocks]
        have hb : ((moves.getD i default).src == (moves.getD index default).src) = false :=
          beq_eq_false_iff_ne.mpr hneq
        simp only [hb, Bool.and_false]
      have hb1 : (moves.getD i default).blocks (moves.getD index default).dest = true := by
        rw [MoveOperands.blocks, hsrc]
        simp only [hpending, Bool.not_false, beq_self_eq_true, Bool.and_self]
      simp only [hb0, hb1, if_true, Bool.false_eq_true, if_false]
  · simp only [Bool.not_eq_true] at hreg
    rw [hreg] at hswap
    simp at hswap

theorem claim_C6_witness :
    (([⟨.invalid, .invalid⟩, ⟨.register 0, .register 0⟩, ⟨.register 1, .register 2⟩] :
        List MoveOperands).getD 2 default).src = Location.register 1 :=
  (claim_C6
      [⟨.register 0, .register 1⟩, ⟨.register 1, .register 0⟩, ⟨.register 0, .register 2⟩]
      0 [⟨.invalid, .invalid⟩, ⟨.register 0, .register 0⟩, ⟨.register 1, .register 2⟩]
      [.swap 1 0] 2 (by decide) (by decide) (by decide) (by decide)).1 rfl

/-- C9: each trivial accessor first loads the receiver (and, for a
setter, the stored value) from its parameter slot; then, when the field
offset divided by the word size fits a narrow signed 8-bit immediate,
the compact single-instruction field op is emitted, and otherwise the
extended two-instruction form (`LoadFieldExt`/`StoreFieldExt` plus a
`Nop` carrying the word offset out of band). -/
theorem claim_C9 (offset : Int) (halign : offset.tmod kWordSize = 0) :
    (isInt8 (offset.tdiv kWordSize) = true →
      generateInlinedGetter offset
          = [.move 0 (-(1 + param_end_from_fp)), .loadField 0 0 (offset.tdiv kWordSize),
             .ret 0] ∧
        generateInlinedSetter offset
          = [.move 0 (-(2 + param_end_from_fp)), .move 1 (-(1 + param_end_from_fp)),
             .storeField 0 (offset.tdiv kWordSize) 1, .loadConstant 0 .nullObj, .ret 0]) ∧
    (isInt8 (offset.tdiv kWordSize) = false →
      generateInlinedGetter offset
          = [.move 0 (-(1 + param_end_from_fp)), .loadFieldExt 0 0,
             .nop (offset.tdiv kWordSize), .ret 0] ∧
        generateInlinedSetter offset
          = [.move 0 (-(2 + param_end_from_fp)), .move 1 (-(1 + param_end_from_fp)),
             .storeFieldExt 0 1, .nop (offset.tdiv kWordSize), .loadConstant 0 .nullObj,
             .ret 0]) := by
  refine ⟨fun h => ⟨?_, ?_⟩, fun h => ⟨?_, ?_⟩⟩ <;>
    simp [generateInlinedGetter, generateInlinedSetter, h]

theorem claim_C9_witness :
    generateInlinedGetter 16
        = [.move 0 (-(1 + param_end_from_fp)), .loadField 0 0 ((16 : Int).tdiv kWordSize),
           .ret 0] ∧
      generateInlinedSetter 2048
        = [.move 0 (-(2 + param_end_from_fp)), .move 1 (-(1 + param_end_from_fp)),
           .storeFieldExt 0 1, .nop ((2048 : Int).tdiv kWordSize), .loadConstant 0 .nullObj,
           .ret 0] :=
  ⟨((claim_C9 16 (by decide)).1 (by decide)).1,
   ((claim_C9 2048 (by decide)).2 (by decide)).2⟩
